import Mathlib

/-!
Shallow embedding of `SMQTK/Indexers/__init__.py`: the `Indexer` abstract
base class (shared lifecycle precondition layer) and the `get_indexers`
plugin-discovery function.
-/

namespace SMQTK

/-- Python values relevant to discovery: a class object (with an identity
tag, its `__name__`, and whether it is a subclass of `Indexer`), a tuple or
list of values, or some other non-type value (no `__name__` attribute). -/
inductive PyVal where
  | cls (id : Nat) (name : String) (isIndexerSubclass : Bool)
  | coll (items : List PyVal)
  | nonType

/-- An imported Python module: its attribute table (`hasattr`/`getattr`). -/
structure PyModule where
  attrs : List (String × PyVal)

/-- Result of `__import__` on a candidate module. -/
inductive ImportResult where
  | ok (m : PyModule)
  | importFailure

/-- Exceptions escaping `get_indexers`: the two explicit `RuntimeError`
raises (which name the offending module), a `TypeError` from `issubclass`
applied to a non-class, an `AttributeError` from reading `__name__` off a
value that has none, and a failed `__import__`. -/
inductive PyErr where
  | runtimeErr (moduleName : String)
  | typeErr
  | attrErr
  | importErr
deriving DecidableEq

/-- Attribute lookup in a module's attribute table (first match wins,
matching a Python namespace where names are unique). -/
def lookupAttr : List (String × PyVal) → String → Option PyVal
  | [], _ => none
  | (k, v) :: rest, name => if k = name then some v else lookupAttr rest name

/-- Python `dict` assignment `d[k] = v`: replaces the value in place when
the key is present (insertion order preserved), appends otherwise. -/
def dictInsert (d : List (String × PyVal)) (k : String) (v : PyVal) :
    List (String × PyVal) :=
  if d.any (fun p => p.1 == k) then
    d.map (fun p => if p.1 == k then (k, v) else p)
  else
    d ++ [(k, v)]

/-- True for `a-z` and `A-Z`. -/
def isAsciiAlpha (c : Char) : Bool :=
  (('a' ≤ c) && (c ≤ 'z')) || (('A' ≤ c) && (c ≤ 'Z'))

/-- Drop a single trailing newline, if present (Python `$` matches just
before a newline that ends the string). -/
def dropTrailingNewline (cs : List Char) : List Char :=
  match cs.getLast? with
  | some ch => if ch = '\n' then cs.dropLast else cs
  | none => cs

/-- Whether a file name starts with an ASCII letter. -/
def startsWithAlpha (s : String) : Bool :=
  match s.data with
  | [] => false
  | c :: _ => isAsciiAlpha c

/-- `re.match("^[a-zA-Z].*(?:\.py)?$", s)` succeeds: the string starts with
an ASCII letter and, since `.` never matches a newline while `.*` must
reach the end anchor, the remainder has no newline except possibly one at
the very end. -/
def file_re_match (s : String) : Bool :=
  startsWithAlpha s && !((dropTrailingNewline s.data.tail).contains '\n')

/-- Index of the last `.` in a character list, if any. -/
def lastDotIdx : List Char → Option Nat
  | [] => none
  | c :: rest =>
    match lastDotIdx rest with
    | some i => some (i + 1)
    | none => if c = '.' then some 0 else none

/-- `os.path.splitext(s)[0]`: cut at the last dot, unless every character
before that dot is itself a dot (leading dots never start an extension). -/
def splitext_root (s : String) : String :=
  match lastDotIdx s.data with
  | none => s
  | some i =>
    if (s.data.take i).any (fun c => c ≠ '.') then
      String.mk (s.data.take i)
    else s

/-- The `__name__` of the module imported for a candidate:
`'.'.join([__name__, module_name])` with this package named
`SMQTK.Indexers`. -/
def dottedModuleName (module_name : String) : String :=
  "SMQTK.Indexers." ++ module_name

/-- The marker-extraction step of `get_indexers` for one imported module:
first the `INDEXER_CLASS` variable (a tuple or list is taken as-is with no
member check; a single class goes through `issubclass(_, Indexer)`, raising
`RuntimeError` when it fails and `TypeError` when the value is not a
class); else an attribute named `module.__name__` (the dotted path), put
through the same `issubclass` check; else the empty list, with no error
raised. -/
def exportedClasses (module_name : String) (m : PyModule) :
    Except PyErr (List PyVal) :=
  match lookupAttr m.attrs "INDEXER_CLASS" with
  | some v =>
    match v with
    | .coll items => .ok items
    | .cls i n b =>
      if b then .ok [.cls i n b] else .error (.runtimeErr module_name)
    | .nonType => .error .typeErr
  | none =>
    match lookupAttr m.attrs (dottedModuleName module_name) with
    | some v =>
      match v with
      | .cls i n b =>
        if b then .ok [.cls i n b] else .error (.runtimeErr module_name)
      | .coll _ => .error .typeErr
      | .nonType => .error .typeErr
    | none => .ok []

/-- `for cls in cl_classes: class_map[cls.__name__] = cls` — reading
`__name__` off a value that is not a class raises `AttributeError`. -/
def registerAll (d : List (String × PyVal)) :
    List PyVal → Except PyErr (List (String × PyVal))
  | [] => .ok d
  | v :: rest =>
    match v with
    | .cls i n b => registerAll (dictInsert d n (.cls i n b)) rest
    | .coll _ => .error .attrErr
    | .nonType => .error .attrErr

/-- The directory scan of `get_indexers`, folding the class map over the
listing: names failing the file regex are skipped entirely; for the rest,
the module name is `splitext`'d, the module imported, its exported classes
extracted and registered. Any exception aborts the whole scan. -/
def get_indexers_go (imports : String → ImportResult) :
    List String → List (String × PyVal) → Except PyErr (List (String × PyVal))
  | [], d => .ok d
  | f :: rest, d =>
    if file_re_match f then
      let module_name := splitext_root f
      match imports module_name with
      | .importFailure => .error .importErr
      | .ok m =>
        match exportedClasses module_name m with
        | .error e => .error e
        | .ok cl_classes =>
          match registerAll d cl_classes with
          | .error e => .error e
          | .ok d' => get_indexers_go imports rest d'
    else
      get_indexers_go imports rest d

/-- `get_indexers()`: scan a directory listing, building the name → class
map. The listing and the import behaviour are parameters of the embedding
(`os.listdir` order and the module contents are environment inputs). -/
def get_indexers (listing : List String) (imports : String → ImportResult) :
    Except PyErr (List (String × PyVal)) :=
  get_indexers_go imports listing []

/-- Observable state of one `Indexer` instance: the two configured
directory paths, whether each exists as a directory on the filesystem, and
the result of the implementation's `has_model()` query. -/
structure IndexerState where
  dataDirPath : String
  workDirPath : String
  dataDirExists : Bool
  workDirExists : Bool
  hasModelFlag : Bool
deriving DecidableEq

/-- `has_model()` — the Contract requires it to be a pure query. -/
def has_model (s : IndexerState) : Bool :=
  s.hasModelFlag

/-- The `data_dir` property: `os.makedirs` when `os.path.isdir` is false,
then return the configured path. -/
def data_dir (s : IndexerState) : IndexerState × String :=
  if s.dataDirExists then (s, s.dataDirPath)
  else ({ s with dataDirExists := true }, s.dataDirPath)

/-- The `work_dir` property: `os.makedirs` when `os.path.isdir` is false,
then return the configured path. -/
def work_dir (s : IndexerState) : IndexerState × String :=
  if s.workDirExists then (s, s.workDirPath)
  else ({ s with workDirExists := true }, s.workDirPath)

/-- `feature_map`: mapping of integer IDs to feature vectors. -/
abbrev FeatureMap := List (Int × List Int)

/-- Errors raised by the shared lifecycle precondition layer, under the
spec's names: `RuntimeError` on an existing model (the message interpolates
`self.data_dir`, so it carries the path), `ValueError` on an empty feature
map, `RuntimeError` on a missing model. -/
inductive LifecycleErr where
  | modelAlreadyExists (dataDirPath : String)
  | emptyInput
  | noModel
deriving DecidableEq

/-- The `Indexer.generate_model` base method body, with the concrete
subclass's continuation as the `impl` parameter: `has_model()` check first
(whose error message evaluates the `data_dir` property, creating the
directory as a side effect), then the `not feature_map` check. Returns the
resulting state and the raised exception, if any. -/
def generate_model (impl : IndexerState → FeatureMap → IndexerState)
    (s : IndexerState) (feature_map : FeatureMap) :
    IndexerState × Option LifecycleErr :=
  if has_model s then
    ((data_dir s).1, some (.modelAlreadyExists (data_dir s).2))
  else if feature_map.isEmpty then
    (s, some .emptyInput)
  else
    (impl s feature_map, none)

/-- The `Indexer.extend_model` base method body: `has_model()` check, then
the subclass continuation. -/
def extend_model (impl : IndexerState → FeatureMap → IndexerState)
    (s : IndexerState) (id_feature_map : FeatureMap) :
    IndexerState × Option LifecycleErr :=
  if !has_model s then (s, some .noModel)
  else (impl s id_feature_map, none)

/-- The `Indexer.rank_model` base method body: `has_model()` check, then
the subclass continuation producing the id → rank mapping (read-only). -/
def rank_model (impl : IndexerState → List Int → List Int → List (Int × ℚ))
    (s : IndexerState) (pos_ids neg_ids : List Int) :
    Except LifecycleErr (List (Int × ℚ)) :=
  if !has_model s then .error .noModel
  else .ok (impl s pos_ids neg_ids)

/-- The `Indexer.reset` base method body: `has_model()` check, then the
subclass continuation. -/
def reset (impl : IndexerState → IndexerState) (s : IndexerState) :
    IndexerState × Option LifecycleErr :=
  if !has_model s then (s, some .noModel)
  else (impl s, none)

end SMQTK

open SMQTK

/-- Claim C4: on an instance whose `has_model()` is true, `generate_model`
raises the existing-model error (naming the data directory) before any
implementation logic runs — the outcome is independent of `impl` — and the
only state change is the directory creation performed by interpolating
`self.data_dir` into the error message; the model flag is untouched. -/
theorem c4_generate_model_refuses_overwrite
    (impl : IndexerState → FeatureMap → IndexerState)
    (s : IndexerState) (fm : FeatureMap) (h : has_model s = true) :
    generate_model impl s fm
      = ({ s with dataDirExists := true },
         some (.modelAlreadyExists s.dataDirPath)) := by
  cases s with
  | mk dp wp de we hm =>
    simp only [has_model] at h
    subst h
    cases de <;> simp [generate_model, data_dir, has_model]

/-- Claim C4 witness: a concrete instance with an existing model. -/
theorem c4_generate_model_refuses_overwrite_witness :
    has_model ⟨"data", "work", false, false, true⟩ = true
  ∧ generate_model (fun s _ => s) ⟨"data", "work", false, false, true⟩ []
      = (⟨"data", "work", true, false, true⟩,
         some (.modelAlreadyExists "data")) :=
  ⟨rfl, c4_generate_model_refuses_overwrite (fun s _ => s)
    ⟨"data", "work", false, false, true⟩ [] rfl⟩

/-- Claim C5: on an instance whose `has_model()` is false, `extend_model`,
`rank_model` and `reset` each raise the no-model error immediately, with
the state unchanged and the implementation continuation never reached. -/
theorem c5_no_model_errors
    (implE : IndexerState → FeatureMap → IndexerState)
    (implR : IndexerState → List Int → List Int → List (Int × ℚ))
    (implZ : IndexerState → IndexerState)
    (s : IndexerState) (fm : FeatureMap) (pos neg : List Int)
    (h : has_model s = false) :
    extend_model implE s fm = (s, some .noModel)
  ∧ rank_model implR s pos neg = .error .noModel
  ∧ reset implZ s = (s, some .noModel) := by
  refine ⟨?_, ?_, ?_⟩ <;> simp [extend_model, rank_model, reset, h]

/-- Claim C5 witness: a concrete instance with no model. -/
theorem c5_no_model_errors_witness :
    has_model ⟨"data", "work", true, true, false⟩ = false
  ∧ (extend_model (fun s _ => s) ⟨"data", "work", true, true, false⟩ []
       = (⟨"data", "work", true, true, false⟩, some .noModel)
     ∧ rank_model (fun _ _ _ => []) ⟨"data", "work", true, true, false⟩ [] []
       = .error .noModel
     ∧ reset (fun s => s) ⟨"data", "work", true, true, false⟩
       = (⟨"data", "work", true, true, false⟩, some .noModel)) :=
  ⟨rfl, c5_no_model_errors (fun s _ => s) (fun _ _ _ => []) (fun s => s)
    ⟨"data", "work", true, true, false⟩ [] [] [] rfl⟩

/-- Claim C6: on an instance with no model, `generate_model` applied to an
empty feature map raises the empty-input error, leaves the state exactly
unchanged (no implementation logic runs), and `has_model()` stays false. -/
theorem c6_empty_feature_map
    (impl : IndexerState → FeatureMap → IndexerState)
    (s : IndexerState) (h : has_model s = false) :
    generate_model impl s [] = (s, some .emptyInput)
  ∧ has_model (generate_model impl s []).1 = false := by
  constructor <;> simp [generate_model, h]

/-- Claim C6 witness: a concrete instance with no model, empty map. -/
theorem c6_empty_feature_map_witness :
    has_model ⟨"data", "work", true, true, false⟩ = false
  ∧ (generate_model (fun s _ => s) ⟨"data", "work", true, true, false⟩ []
       = (⟨"data", "work", true, true, false⟩, some .emptyInput)
     ∧ has_model (generate_model (fun s _ => s)
         ⟨"data", "work", true, true, false⟩ []).1 = false) :=
  ⟨rfl, c6_empty_feature_map (fun s _ => s)
    ⟨"data", "work", true, true, false⟩ rfl⟩

/-- Claim C9: `data_dir` and `work_dir` return the caller-supplied path and
create the directory exactly when it is absent (the state change is
precisely setting the exists flag, a no-op when already set), and a second
access is an identity on the state — idempotent, no error. -/
theorem c9_dir_handles (s : IndexerState) :
    data_dir s = ({ s with dataDirExists := true }, s.dataDirPath)
  ∧ work_dir s = ({ s with workDirExists := true }, s.workDirPath)
  ∧ data_dir (data_dir s).1 = ((data_dir s).1, s.dataDirPath)
  ∧ work_dir (work_dir s).1 = ((work_dir s).1, s.workDirPath) := by
  cases s with
  | mk dp wp de we hm =>
    cases de <;> cases we <;> simp [data_dir, work_dir]

/-- Claim C10: when a model already exists, the existing-model check fires
before the empty-input check: `generate_model` on an empty feature map
raises the existing-model error, not the empty-input error. -/
theorem c10_existing_model_checked_first
    (impl : IndexerState → FeatureMap → IndexerState)
    (s : IndexerState) (h : has_model s = true) :
    generate_model impl s []
      = ({ s with dataDirExists := true },
         some (.modelAlreadyExists s.dataDirPath))
  ∧ (generate_model impl s []).2 ≠ some .emptyInput := by
  cases s with
  | mk dp wp de we hm =>
    simp only [has_model] at h
    subst h
    cases de <;> simp [generate_model, data_dir, has_model]

/-- Claim C10 witness: existing model and empty map together. -/
theorem c10_existing_model_checked_first_witness :
    has_model ⟨"data", "work", true, true, true⟩ = true
  ∧ (generate_model (fun s _ => s) ⟨"data", "work", true, true, true⟩ []
       = (⟨"data", "work", true, true, true⟩,
          some (.modelAlreadyExists "data"))
     ∧ (generate_model (fun s _ => s)
          ⟨"data", "work", true, true, true⟩ []).2 ≠ some .emptyInput) :=
  ⟨rfl, c10_existing_model_checked_first (fun s _ => s)
    ⟨"data", "work", true, true, true⟩ rfl⟩

/-- Claim C1 (code bug evidence): a candidate module that defines neither
`INDEXER_CLASS` nor any same-named symbol leaves `cl_classes` as the empty
list and the scan completes normally with an empty registry — no exception
of any kind is raised, contradicting the function's own docstring ("If
neither are found, we raise a RuntimeError"). -/
theorem c1_empty_export_completes_silently :
    get_indexers ["emptymod.py"]
      (fun n => if n = "emptymod" then .ok ⟨[]⟩ else .importFailure)
    = .ok [] := rfl

/-- Claim C7 (code bug evidence): the same-name branch tests
`hasattr(module, module.__name__)` where `module.__name__` is the dotted
path `SMQTK.Indexers.foo`, never the bare module name, so a module whose
only attribute is a same-named symbol — whether a non-conforming class or
even a conforming one — is silently skipped and discovery completes
normally with an empty registry instead of raising. -/
theorem c7_same_named_symbol_never_found :
    get_indexers ["foo.py"]
      (fun n => if n = "foo"
        then .ok ⟨[("foo", .cls 0 "foo" false)]⟩
        else .importFailure)
    = .ok []
  ∧ get_indexers ["bar.py"]
      (fun n => if n = "bar"
        then .ok ⟨[("bar", .cls 1 "bar" true)]⟩
        else .importFailure)
    = .ok [] :=
  ⟨rfl, rfl⟩

/-- Claim C2 counterexample: a candidate whose `INDEXER_CLASS` is a list
containing a class that is not an `Indexer` subclass is registered as-is —
discovery returns the map with that entry instead of raising any error. -/
theorem c2_counterexample :
    get_indexers ["mymod.py"]
      (fun n => if n = "mymod"
        then .ok ⟨[("INDEXER_CLASS", .coll [.cls 0 "NotAnIndexer" false])]⟩
        else .importFailure)
    = .ok [("NotAnIndexer", .cls 0 "NotAnIndexer" false)] := rfl

/-- Claim C2 amended: when `INDEXER_CLASS` holds a tuple or list, its
members are registered under their class names with no Contract
validation at all — the result is the same whether or not the members are
`Indexer` subclasses, and no error is raised. -/
theorem c2_collection_members_unvalidated (n1 n2 : String) (b1 b2 : Bool)
    (h : n1 ≠ n2) :
    get_indexers ["mymod.py"]
      (fun n => if n = "mymod"
        then .ok ⟨[("INDEXER_CLASS", .coll [.cls 0 n1 b1, .cls 1 n2 b2])]⟩
        else .importFailure)
    = .ok [(n1, .cls 0 n1 b1), (n2, .cls 1 n2 b2)] := by
  have hb : (n1 == n2) = false := beq_eq_false_iff_ne.mpr h
  show Except.ok (dictInsert [(n1, .cls 0 n1 b1)] n2 (.cls 1 n2 b2)) = _
  simp [dictInsert, hb]

/-- Claim C2 amended witness: two non-conforming classes in the marker
list are both registered without error. -/
theorem c2_collection_members_unvalidated_witness :
    ("TypeA" : String) ≠ "TypeB"
  ∧ get_indexers ["mymod.py"]
      (fun n => if n = "mymod"
        then .ok ⟨[("INDEXER_CLASS",
                    .coll [.cls 0 "TypeA" false, .cls 1 "TypeB" false])]⟩
        else .importFailure)
    = .ok [("TypeA", .cls 0 "TypeA" false), ("TypeB", .cls 1 "TypeB" false)] :=
  ⟨by decide, c2_collection_members_unvalidated "TypeA" "TypeB" false false
    (by decide)⟩

/-- Claim C3 counterexample: `9mod.py` starts with an ASCII digit, yet the
file regex `^[a-zA-Z].*(?:\.py)?$` rejects it, so it is not a candidate:
discovery over a listing holding only this entry completes with an empty
registry even though importing it would fail. -/
theorem c3_counterexample :
    "9mod.py".data.head? = some '9'
  ∧ file_re_match "9mod.py" = false
  ∧ get_indexers ["9mod.py"] (fun _ => .importFailure) = .ok [] :=
  ⟨rfl, rfl, rfl⟩

/-- Claim C3 amended: an entry is a candidate only when its name starts
with an ASCII letter; any entry starting with an underscore, a digit, or
any other non-letter is skipped entirely — it contributes no registry
entries and causes no error even when importing it would fail. -/
theorem c3_non_letter_names_skipped (f : String) (rest : List String)
    (imports : String → ImportResult) (h : startsWithAlpha f = false) :
    get_indexers (f :: rest) imports = get_indexers rest imports := by
  have hre : file_re_match f = false := by
    simp [file_re_match, h]
  simp only [get_indexers, get_indexers_go, hre]
  simp

/-- Claim C3 amended witness: an underscore-prefixed file is skipped even
though importing it would fail. -/
theorem c3_non_letter_names_skipped_witness :
    startsWithAlpha "_helpers.py" = false
  ∧ get_indexers ["_helpers.py"] (fun _ => .importFailure)
      = get_indexers [] (fun _ => .importFailure) :=
  ⟨rfl, c3_non_letter_names_skipped "_helpers.py" []
    (fun _ => .importFailure) rfl⟩

/-- Claim C8: each exported class is registered under its own `__name__`
(a candidate exporting `INDEXER_CLASS = [TypeA, TypeB]` yields exactly
those two entries), and when a later candidate exports a class with an
already-registered name, the later class silently overwrites the earlier
entry in place. -/
theorem c8_registry_keys_and_overwrite (nA nB : String) (h : nA ≠ nB) :
    get_indexers ["alpha.py"]
      (fun n => if n = "alpha"
        then .ok ⟨[("INDEXER_CLASS", .coll [.cls 0 nA true, .cls 1 nB true])]⟩
        else .importFailure)
    = .ok [(nA, .cls 0 nA true), (nB, .cls 1 nB true)]
  ∧ get_indexers ["alpha.py", "beta.py"]
      (fun n => if n = "alpha"
        then .ok ⟨[("INDEXER_CLASS", .coll [.cls 0 nA true, .cls 1 nB true])]⟩
        else if n = "beta"
        then .ok ⟨[("INDEXER_CLASS", .cls 2 nA true)]⟩
        else .importFailure)
    = .ok [(nA, .cls 2 nA true), (nB, .cls 1 nB true)] := by
  have hb : (nA == nB) = false := beq_eq_false_iff_ne.mpr h
  have hb2 : (nB == nA) = false := beq_eq_false_iff_ne.mpr (Ne.symm h)
  constructor
  · show Except.ok (dictInsert [(nA, .cls 0 nA true)] nB (.cls 1 nB true)) = _
    simp [dictInsert, hb]
  · show Except.ok
      (dictInsert (dictInsert [(nA, .cls 0 nA true)] nB (.cls 1 nB true))
        nA (.cls 2 nA true)) = _
    simp [dictInsert, hb, hb2]
    exact Ne.symm h

/-- Claim C8 witness: concrete `TypeA`/`TypeB` plugin set with a colliding
later export of `TypeA`. -/
theorem c8_registry_keys_and_overwrite_witness :
    ("TypeA" : String) ≠ "TypeB"
  ∧ (get_indexers ["alpha.py"]
      (fun n => if n = "alpha"
        then .ok ⟨[("INDEXER_CLASS",
                    .coll [.cls 0 "TypeA" true, .cls 1 "TypeB" true])]⟩
        else .importFailure)
    = .ok [("TypeA", .cls 0 "TypeA" true), ("TypeB", .cls 1 "TypeB" true)]
  ∧ get_indexers ["alpha.py", "beta.py"]
      (fun n => if n = "alpha"
        then .ok ⟨[("INDEXER_CLASS",
                    .coll [.cls 0 "TypeA" true, .cls 1 "TypeB" true])]⟩
        else if n = "beta"
        then .ok ⟨[("INDEXER_CLASS", .cls 2 "TypeA" true)]⟩
        else .importFailure)
    = .ok [("TypeA", .cls 2 "TypeA" true), ("TypeB", .cls 1 "TypeB" true)]) :=
  ⟨by decide, c8_registry_keys_and_overwrite "TypeA" "TypeB" (by decide)⟩
